import Mathlib

/-!
Verification of the clio-docgeneration repository.

The Python sources (`src/clio.py`, `src/translate_io.py`, `src/doc.py`,
`src/main.py`) are shallowly embedded below.  Python dictionaries are
modelled as association lists with Python insertion-order semantics
(lookup finds the unique binding; assignment updates in place or appends),
Python `None` is `Option.none`, and statements that raise at run time
(attribute errors, dictionary mutation during iteration) are modelled with
`Except String`.  Network calls are modelled by passing the response the
server would return as an explicit argument, together with a flag or a
counter recording whether the request was actually issued.
-/

/-- A Python scalar value appearing in the input dictionaries of
`translate_io` (the source annotates `Dict[str, str]` but its own test
feeds `int` values, so both are represented). -/
inductive PyVal where
  | pstr (s : String)
  | pint (n : Int)
deriving DecidableEq

/-- Python `str(...)` on the values above. -/
def pyStr : PyVal → String
  | PyVal.pstr s => s
  | PyVal.pint n => toString n

/-- Python `d[k]` / `k in d` on a dictionary: the value of the unique
binding of `k`, if present. -/
def dictGet (k : String) : List (String × β) → Option β
  | [] => Option.none
  | p :: rest => if p.1 = k then some p.2 else dictGet k rest

/-- Python `d[k] = v`: update the binding in place when the key is
present, append a new binding otherwise. -/
def dictInsert (d : List (String × β)) (k : String) (v : β) : List (String × β) :=
  match d with
  | [] => [(k, v)]
  | p :: rest => if p.1 = k then (k, v) :: rest else p :: dictInsert rest k v

/-- The inner loop of `translate_io`: the first candidate input key that
is present in `input` yields its value (`for inputKey in mapping[outputKey]:
if inputKey in input: ... break`). -/
def firstMatch (input : List (String × PyVal)) : List String → Option PyVal
  | [] => Option.none
  | c :: cs =>
    match dictGet c input with
    | some v => some v
    | Option.none => firstMatch input cs

/-- One iteration of the outer loop of `translate_io`: bind the output
key to the string of the first matching candidate, then default it to the
empty string when it is still unbound. -/
def translateStep (input : List (String × PyVal)) (output : List (String × String))
    (k : String) (cands : List String) : List (String × String) :=
  let out1 :=
    match firstMatch input cands with
    | some v => dictInsert output k (pyStr v)
    | Option.none => output
  match dictGet k out1 with
  | some _ => out1
  | Option.none => dictInsert out1 k ""

/-- The outer `for outputKey in mapping:` loop of `translate_io`. -/
def translateGo (input : List (String × PyVal)) :
    List (String × List String) → List (String × String) → List (String × String)
  | [], output => output
  | (k, cands) :: rest, output => translateGo input rest (translateStep input output k cands)

/-- `translate_io(input, mapping)` from `src/translate_io.py` (the branch
that receives the mapping directly as a dictionary; the file-reading
branch only loads the same dictionary from disk). -/
def translate_io (input : List (String × PyVal)) (mapping : List (String × List String)) :
    List (String × String) :=
  translateGo input mapping []

/-- The value the spec says an output key receives: the value of the
first candidate input key present in the input, converted to a string,
and the empty string when no candidate matches. -/
def specTranslatedValue (input : List (String × PyVal)) (cands : List String) : String :=
  match firstMatch input cands with
  | some v => pyStr v
  | Option.none => ""

theorem dictGet_append_single_ne (k k0 : String) (v : β) (d : List (String × β))
    (h : k ≠ k0) : dictGet k (d ++ [(k0, v)]) = dictGet k d := by
  induction d with
  | nil => simp [dictGet, Ne.symm h]
  | cons p rest ih =>
    by_cases hp : p.1 = k
    · simp [dictGet, hp]
    · simp [dictGet, hp, ih]

theorem dictGet_append_none (k : String) (d1 d2 : List (String × β))
    (h : dictGet k d1 = Option.none) : dictGet k (d1 ++ d2) = dictGet k d2 := by
  induction d1 with
  | nil => simp
  | cons p rest ih =>
    by_cases hp : p.1 = k
    · simp [dictGet, hp] at h
    · simp [dictGet, hp] at h ⊢
      exact ih h

theorem dictInsert_of_absent (k : String) (v : β) (d : List (String × β))
    (h : dictGet k d = Option.none) : dictInsert d k v = d ++ [(k, v)] := by
  induction d with
  | nil => rfl
  | cons p rest ih =>
    by_cases hp : p.1 = k
    · simp [dictGet, hp] at h
    · simp [dictGet, hp] at h
      simp [dictInsert, hp, ih h]

theorem dictGet_insert_self (k : String) (v : β) (d : List (String × β)) :
    dictGet k (dictInsert d k v) = some v := by
  induction d with
  | nil => simp [dictInsert, dictGet]
  | cons p rest ih =>
    by_cases hp : p.1 = k
    · simp [dictInsert, hp, dictGet]
    · simp [dictInsert, hp, dictGet, ih]

theorem translateStep_of_absent (input : List (String × PyVal))
    (output : List (String × String)) (k : String) (cands : List String)
    (h : dictGet k output = Option.none) :
    translateStep input output k cands = output ++ [(k, specTranslatedValue input cands)] := by
  unfold translateStep specTranslatedValue
  cases hm : firstMatch input cands with
  | some v =>
    simp only [hm]
    rw [dictInsert_of_absent _ _ _ h]
    have : dictGet k (output ++ [(k, pyStr v)]) = some (pyStr v) := by
      rw [dictGet_append_none _ _ _ h]; simp [dictGet]
    simp [this]
  | none =>
    simp only [hm, h]
    rw [dictInsert_of_absent _ _ _ h]

theorem translateGo_spec (input : List (String × PyVal)) :
    ∀ (mapping : List (String × List String)) (output : List (String × String)),
    (mapping.map Prod.fst).Nodup →
    (∀ k, k ∈ mapping.map Prod.fst → dictGet k output = Option.none) →
    ((translateGo input mapping output).map Prod.fst
        = output.map Prod.fst ++ mapping.map Prod.fst) ∧
    (∀ k, k ∉ mapping.map Prod.fst →
        dictGet k (translateGo input mapping output) = dictGet k output) ∧
    (∀ k cands, (k, cands) ∈ mapping →
        dictGet k (translateGo input mapping output)
          = some (specTranslatedValue input cands)) := by
  intro mapping
  induction mapping with
  | nil =>
    intro output _ _
    refine ⟨by simp [translateGo], fun k _ => rfl, by simp⟩
  | cons e rest ih =>
    intro output hnd habs
    obtain ⟨k0, cands0⟩ := e
    have hk0 : dictGet k0 output = Option.none := habs k0 (by simp)
    have hnd' : (rest.map Prod.fst).Nodup := (List.nodup_cons.mp hnd).2
    have hk0notin : k0 ∉ rest.map Prod.fst := (List.nodup_cons.mp hnd).1
    have hstep : translateStep input output k0 cands0
        = output ++ [(k0, specTranslatedValue input cands0)] :=
      translateStep_of_absent input output k0 cands0 hk0
    have habs' : ∀ k, k ∈ rest.map Prod.fst →
        dictGet k (translateStep input output k0 cands0) = Option.none := by
      intro k hk
      have hne : k ≠ k0 := fun hkk => hk0notin (hkk ▸ hk)
      rw [hstep, dictGet_append_single_ne _ _ _ _ hne]
      exact habs k (by simp [hk])
    obtain ⟨ihkeys, ihpres, ihmem⟩ := ih (translateStep input output k0 cands0) hnd' habs'
    refine ⟨?_, ?_, ?_⟩
    · simp only [translateGo]
      rw [ihkeys, hstep]
      simp
    · intro k hk
      have hne : k ≠ k0 := by
        intro hkk; exact hk (by simp [hkk])
      have hkrest : k ∉ rest.map Prod.fst := by
        intro hkr; exact hk (by simp [hkr])
      simp only [translateGo]
      rw [ihpres k hkrest, hstep, dictGet_append_single_ne _ _ _ _ hne]
    · intro k cands hmem
      rcases List.mem_cons.mp hmem with hhd | htl
      · injection hhd with hk hc
        subst hk; subst hc
        simp only [translateGo]
        rw [ihpres _ hk0notin, hstep, dictGet_append_none _ _ _ hk0]
        simp [dictGet]
      · simp only [translateGo]
        exact ihmem k cands htl

/-- C5: `translate_io` is deterministic and total (it is a function);
for a mapping whose output keys are distinct (always true of a Python
dictionary), the output binds exactly the mapping keys, in order, and
each output key is bound to the string of the value of the first
candidate input key present in the input, or to the empty string when no
candidate matches. -/
theorem c5_translate_io_spec (input : List (String × PyVal))
    (mapping : List (String × List String))
    (hnd : (mapping.map Prod.fst).Nodup) :
    ((translate_io input mapping).map Prod.fst = mapping.map Prod.fst) ∧
    (∀ k cands, (k, cands) ∈ mapping →
        dictGet k (translate_io input mapping) = some (specTranslatedValue input cands)) := by
  have h := translateGo_spec input mapping [] hnd (fun k _ => rfl)
  exact ⟨by simpa using h.1, h.2.2⟩

/-- Witness for C5 at the concrete instance from the spec: mapping
`{"k1": ["a", "b"], "k2": ["c"]}` and input `{"b": "2"}` give the output
`{"k1": "2", "k2": ""}`. -/
theorem c5_translate_io_spec_witness :
    ((([("k1", ["a", "b"]), ("k2", ["c"])] : List (String × List String)).map Prod.fst).Nodup) ∧
    (translate_io [("b", PyVal.pstr "2")] [("k1", ["a", "b"]), ("k2", ["c"])]).map Prod.fst
        = ["k1", "k2"] ∧
    dictGet "k1" (translate_io [("b", PyVal.pstr "2")] [("k1", ["a", "b"]), ("k2", ["c"])])
        = some "2" ∧
    dictGet "k2" (translate_io [("b", PyVal.pstr "2")] [("k1", ["a", "b"]), ("k2", ["c"])])
        = some "" := by
  refine ⟨by decide, ?_, ?_, ?_⟩
  · exact (c5_translate_io_spec [("b", PyVal.pstr "2")] [("k1", ["a", "b"]), ("k2", ["c"])]
      (by decide)).1
  · exact (c5_translate_io_spec [("b", PyVal.pstr "2")] [("k1", ["a", "b"]), ("k2", ["c"])]
      (by decide)).2 "k1" ["a", "b"] (by decide)
  · exact (c5_translate_io_spec [("b", PyVal.pstr "2")] [("k1", ["a", "b"]), ("k2", ["c"])]
      (by decide)).2 "k2" ["c"] (by decide)

/-- Python `str.capitalize()`: first character uppercased, the rest
lowercased. -/
def pyCapitalize (s : String) : String :=
  match s.data with
  | [] => ""
  | c :: cs => String.mk (c.toUpper :: cs.map Char.toLower)

/-- `Clio.Email` (`src/clio.py`): fields in source order. -/
structure Email where
  email : String
  name : String
  default : Bool
  id : Option Int
  etag : Option String
deriving DecidableEq

/-- `Clio.Email.__init__`: capitalizes the label and demotes it to
"Other" unless it is "Work" or "Home". -/
def emailInit (email : String) (isDefault : Bool) (name : String)
    (id : Option Int) (etag : Option String) : Email :=
  let n := pyCapitalize name
  { email := email, name := if n = "Work" ∨ n = "Home" then n else "Other",
    default := isDefault, id := id, etag := etag }

/-- `Clio.Address` (`src/clio.py`). -/
structure Address where
  street : String
  city : String
  state : String
  zipcode : String
  country : String
  id : Option Int
  etag : Option String
  name : String
  default : Bool
deriving DecidableEq

/-- `Clio.Address.__init__`: capitalizes the label and demotes it to
"Other" unless it is "Work", "Home" or "Billing". -/
def addressInit (street city state zipcode country : String) (isDefault : Bool)
    (name : String) (id : Option Int) (etag : Option String) : Address :=
  let n := pyCapitalize name
  { street := street, city := city, state := state, zipcode := zipcode, country := country,
    id := id, etag := etag,
    name := if n = "Work" ∨ n = "Home" ∨ n = "Billing" then n else "Other",
    default := isDefault }

/-- `Clio.PhoneNumber` (`src/clio.py`). -/
structure PhoneNumber where
  number : String
  default : Bool
  name : String
  id : Option Int
  etag : Option String
deriving DecidableEq

/-- `Clio.PhoneNumber.__init__`: capitalizes the label and demotes it to
"Other" unless it is one of the six recognized labels. -/
def phoneNumberInit (number : String) (isDefault : Bool) (name : String)
    (id : Option Int) (etag : Option String) : PhoneNumber :=
  let n := pyCapitalize name
  { number := number, default := isDefault,
    name := if n = "Work" ∨ n = "Home" ∨ n = "Mobile" ∨ n = "Fax" ∨ n = "Pager" ∨ n = "Skype"
      then n else "Other",
    id := id, etag := etag }

/-- Recursion over the items of a label-collection, carrying whether a
default entry has already been seen. -/
def ensureSingleDefaultGo (getD : α → Bool) (setD : α → Bool → α) : Bool → List α → List α
  | _, [] => []
  | seen, x :: xs =>
    if getD x then
      (if seen then setD x false else x) :: ensureSingleDefaultGo getD setD true xs
    else
      x :: ensureSingleDefaultGo getD setD seen xs

/-- Modelled from the spec: `Clio.Contact._ensureSingleDefault` has an
empty (`pass`) body in the source, so the implementation is missing; per
its docstring and the spec it scans a label-collection (addresses,
emails, phone numbers) and, when several entries are marked default,
keeps the first default and demotes every later default to false.  The
duck-typed access to the `default` attribute is rendered as explicit
getter/setter parameters. -/
def ensureSingleDefault (getD : α → Bool) (setD : α → Bool → α) (items : List α) : List α :=
  ensureSingleDefaultGo getD setD false items

theorem ensureSingleDefaultGo_true (getD : α → Bool) (setD : α → Bool → α) (l : List α) :
    ensureSingleDefaultGo getD setD true l
      = l.map (fun y => if getD y then setD y false else y) := by
  induction l with
  | nil => rfl
  | cons x xs ih =>
    by_cases hx : getD x
    · simp [ensureSingleDefaultGo, hx, ih]
    · simp [ensureSingleDefaultGo, hx, ih]

theorem ensureSingleDefaultGo_decomp (getD : α → Bool) (setD : α → Bool → α) :
    ∀ (pre : List α) (x : α) (post : List α),
    (∀ y ∈ pre, getD y = false) → getD x = true →
    ensureSingleDefaultGo getD setD false (pre ++ x :: post)
      = pre ++ x :: (post.map fun y => if getD y then setD y false else y) := by
  intro pre
  induction pre with
  | nil =>
    intro x post _ hx
    simp [ensureSingleDefaultGo, hx, ensureSingleDefaultGo_true]
  | cons p ps ih =>
    intro x post hpre hx
    have hp : getD p = false := hpre p (by simp)
    have ih2 := ih x post (fun y hy => hpre y (by simp [hy])) hx
    simp only [List.cons_append, ensureSingleDefaultGo, hp]
    simp only [Bool.false_eq_true, if_false]
    exact congrArg (fun l => p :: l) ih2

theorem countP_map_demoted (getD : α → Bool) (setD : α → Bool → α)
    (hset : ∀ y, getD (setD y false) = false) (l : List α) :
    (l.map fun y => if getD y then setD y false else y).countP getD = 0 := by
  induction l with
  | nil => rfl
  | cons x xs ih =>
    by_cases hx : getD x
    · simp [List.countP_cons, hx, hset, ih]
    · simp [List.countP_cons, hx, ih]

theorem exists_first_default (getD : α → Bool) :
    ∀ (l : List α), 1 ≤ l.countP getD →
    ∃ pre x post, l = pre ++ x :: post ∧ (∀ y ∈ pre, getD y = false) ∧ getD x = true := by
  intro l
  induction l with
  | nil => intro h; simp [List.countP_nil] at h
  | cons z zs ih =>
    intro h
    by_cases hz : getD z
    · exact ⟨[], z, zs, rfl, by simp, hz⟩
    · have hzs : 1 ≤ zs.countP getD := by
        simpa [List.countP_cons, hz] using h
      obtain ⟨pre, x, post, heq, hpre, hx⟩ := ih hzs
      refine ⟨z :: pre, x, post, by simp [heq], ?_, hx⟩
      intro y hy
      rcases List.mem_cons.mp hy with hy | hy
      · simpa [hy] using (by simpa using hz : getD z = false)
      · exact hpre y hy

/-- C2: for every label-collection (modelled generically over the entry
type, instantiated by `Address`, `Email` and `PhoneNumber`) with at least
two entries marked default, `ensureSingleDefault` returns a collection
with exactly one entry marked default; that entry is the first default of
the input, kept unchanged in place, while every later default is demoted
to false and every other entry is untouched. -/
theorem c2_ensureSingleDefault_spec {α : Type} (getD : α → Bool) (setD : α → Bool → α)
    (hset : ∀ y, getD (setD y false) = false) (items : List α)
    (h2 : 2 ≤ items.countP getD) :
    (ensureSingleDefault getD setD items).countP getD = 1 ∧
    ∃ pre x post, items = pre ++ x :: post ∧ (∀ y ∈ pre, getD y = false) ∧ getD x = true ∧
      ensureSingleDefault getD setD items
        = pre ++ x :: (post.map fun y => if getD y then setD y false else y) := by
  obtain ⟨pre, x, post, heq, hpre, hx⟩ :=
    exists_first_default getD items (le_trans (by omega) h2)
  have hdec : ensureSingleDefault getD setD items
      = pre ++ x :: (post.map fun y => if getD y then setD y false else y) := by
    rw [ensureSingleDefault, heq]
    exact ensureSingleDefaultGo_decomp getD setD pre x post hpre hx
  refine ⟨?_, pre, x, post, heq, hpre, hx, hdec⟩
  rw [hdec]
  have hpre0 : pre.countP getD = 0 := by
    rw [List.countP_eq_zero]
    intro y hy
    simp [hpre y hy]
  simp [List.countP_append, List.countP_cons, hpre0, hx,
    countP_map_demoted getD setD hset]

/-- Witness for C2 at a concrete `Email` collection with two defaults:
the first default is kept and the second is demoted. -/
theorem c2_ensureSingleDefault_spec_witness :
    (2 ≤ ([⟨"a@x.com", "Work", true, Option.none, Option.none⟩,
           ⟨"b@x.com", "Home", true, Option.none, Option.none⟩] : List Email).countP
            (fun e => e.default)) ∧
    ((ensureSingleDefault (fun e : Email => e.default) (fun e b => { e with default := b })
        [⟨"a@x.com", "Work", true, Option.none, Option.none⟩,
         ⟨"b@x.com", "Home", true, Option.none, Option.none⟩]).countP (fun e => e.default) = 1 ∧
      ∃ pre x post,
        ([⟨"a@x.com", "Work", true, Option.none, Option.none⟩,
          ⟨"b@x.com", "Home", true, Option.none, Option.none⟩] : List Email)
            = pre ++ x :: post ∧
        (∀ y ∈ pre, (fun e : Email => e.default) y = false) ∧
        (fun e : Email => e.default) x = true ∧
        ensureSingleDefault (fun e : Email => e.default) (fun e b => { e with default := b })
            [⟨"a@x.com", "Work", true, Option.none, Option.none⟩,
             ⟨"b@x.com", "Home", true, Option.none, Option.none⟩]
          = pre ++ x :: (post.map fun y =>
              if (fun e : Email => e.default) y
              then (fun e b => { e with default := b }) y false else y)) :=
  ⟨by decide,
   c2_ensureSingleDefault_spec (fun e : Email => e.default) (fun e b => { e with default := b })
     (fun _ => rfl) _ (by decide)⟩

/-- Wire dictionary produced by `Clio.Email.toDict`: every key is always
emitted (possibly bound to `None`), so the dictionary is represented as a
record with one field per key. -/
structure EmailWire where
  id : Option Int
  etag : Option String
  address : String
  name : String
  primary : Bool
deriving DecidableEq

/-- `Clio.Email.toDict`. -/
def Email.toDict (e : Email) : EmailWire :=
  { id := e.id, etag := e.etag, address := e.email, name := e.name, primary := e.default }

/-- `Clio.Email.updateFromDict`: with `updateExisting = false` only the
locally unset id and etag are populated; otherwise every key of the
dictionary (all keys are present in a `toDict` output) overwrites the
local value via `dict.get(key, current)`. -/
def Email.updateFromDict (e : Email) (d : EmailWire) (updateExisting : Bool) : Email :=
  if updateExisting = false then
    { e with id := if e.id = Option.none then d.id else e.id,
             etag := if e.etag = Option.none then d.etag else e.etag }
  else
    { id := d.id, etag := d.etag, email := d.address, name := d.name, default := d.primary }

/-- Wire dictionary produced by `Clio.Address.toDict` (state is emitted
as `province`, zipcode as `postal_code`, the default flag as `primary`). -/
structure AddressWire where
  id : Option Int
  etag : Option String
  street : String
  city : String
  province : String
  postal_code : String
  country : String
  name : String
  primary : Bool
deriving DecidableEq

/-- `Clio.Address.toDict`. -/
def Address.toDict (a : Address) : AddressWire :=
  { id := a.id, etag := a.etag, street := a.street, city := a.city, province := a.state,
    postal_code := a.zipcode, country := a.country, name := a.name, primary := a.default }

/-- `Clio.Address.updateFromDict`. -/
def Address.updateFromDict (a : Address) (d : AddressWire) (updateExisting : Bool) : Address :=
  if updateExisting = false then
    { a with id := if a.id = Option.none then d.id else a.id,
             etag := if a.etag = Option.none then d.etag else a.etag }
  else
    { id := d.id, etag := d.etag, street := d.street, city := d.city, state := d.province,
      zipcode := d.postal_code, country := d.country, name := d.name, default := d.primary }

/-- Wire dictionary produced by `Clio.PhoneNumber.toDict`. -/
structure PhoneNumberWire where
  id : Option Int
  etag : Option String
  number : String
  name : String
  primary : Bool
deriving DecidableEq

/-- `Clio.PhoneNumber.toDict`. -/
def PhoneNumber.toDict (p : PhoneNumber) : PhoneNumberWire :=
  { id := p.id, etag := p.etag, number := p.number, name := p.name, primary := p.default }

/-- `Clio.PhoneNumber.updateFromDict`. -/
def PhoneNumber.updateFromDict (p : PhoneNumber) (d : PhoneNumberWire)
    (updateExisting : Bool) : PhoneNumber :=
  if updateExisting = false then
    { p with id := if p.id = Option.none then d.id else p.id,
             etag := if p.etag = Option.none then d.etag else p.etag }
  else
    { id := d.id, etag := d.etag, number := d.number, name := d.name, default := d.primary }

/-- Serialize-then-deserialize round-trip for `Email`: updating any
freshly-built email from the wire dictionary of `a` with
`updateExisting = true` reproduces every field of `a`. -/
theorem email_toDict_updateFromDict_roundTrip (a b : Email) :
    Email.updateFromDict b (Email.toDict a) true = a := rfl

/-- Serialize-then-deserialize round-trip for `Address`. -/
theorem address_toDict_updateFromDict_roundTrip (a b : Address) :
    Address.updateFromDict b (Address.toDict a) true = a := rfl

/-- Serialize-then-deserialize round-trip for `PhoneNumber`. -/
theorem phoneNumber_toDict_updateFromDict_roundTrip (a b : PhoneNumber) :
    PhoneNumber.updateFromDict b (PhoneNumber.toDict a) true = a := rfl

/-- A Python object stored as a value of the `Contact.toDict` dictionary. -/
inductive PyObj where
  | pnone
  | pint (n : Int)
  | pstr (s : String)
  | pbool (b : Bool)
  | plist (xs : List PyObj)
  | pdict (xs : List (String × PyObj))

/-- Python `x` for an `int`-or-`None` attribute. -/
def optIntObj : Option Int → PyObj
  | Option.none => PyObj.pnone
  | some n => PyObj.pint n

/-- Python `x` for a `str`-or-`None` attribute. -/
def optStrObj : Option String → PyObj
  | Option.none => PyObj.pnone
  | some s => PyObj.pstr s

/-- The `AddressWire` record as the Python dictionary object it denotes. -/
def addressWireObj (d : AddressWire) : PyObj :=
  PyObj.pdict
    [("id", optIntObj d.id), ("etag", optStrObj d.etag), ("street", PyObj.pstr d.street),
     ("city", PyObj.pstr d.city), ("province", PyObj.pstr d.province),
     ("postal_code", PyObj.pstr d.postal_code), ("country", PyObj.pstr d.country),
     ("name", PyObj.pstr d.name), ("primary", PyObj.pbool d.primary)]

/-- The `EmailWire` record as the Python dictionary object it denotes. -/
def emailWireObj (d : EmailWire) : PyObj :=
  PyObj.pdict
    [("id", optIntObj d.id), ("etag", optStrObj d.etag), ("address", PyObj.pstr d.address),
     ("name", PyObj.pstr d.name), ("primary", PyObj.pbool d.primary)]

/-- The `PhoneNumberWire` record as the Python dictionary object it denotes. -/
def phoneNumberWireObj (d : PhoneNumberWire) : PyObj :=
  PyObj.pdict
    [("id", optIntObj d.id), ("etag", optStrObj d.etag), ("number", PyObj.pstr d.number),
     ("name", PyObj.pstr d.name), ("primary", PyObj.pbool d.primary)]

/-- `Clio.Contact` (`src/clio.py`): the three collections and the custom
fields are optional because the Python constructor defaults them to
`None`. -/
structure Contact where
  firstName : String
  lastName : String
  middleName : Option String
  title : Option String
  addresses : Option (List Address)
  company : Option Int
  customFields : Option (List (Int × String))
  dob : Option String
  emails : Option (List Email)
  phoneNumbers : Option (List PhoneNumber)
  id : Option Int
  etag : Option String
  contactType : String
deriving DecidableEq

/-- `Clio.Contact.__init__`: runs each collection through
`_ensureSingleDefault` (modelled from the spec, mapped under the `None`
option) and normalizes the contact type, demoting anything but "Person"
to "Company". -/
def contactInit (firstName lastName contactType : String)
    (middleName title : Option String) (addresses : Option (List Address))
    (company : Option Int) (customFields : Option (List (Int × String)))
    (dob : Option String) (emails : Option (List Email))
    (phoneNumbers : Option (List PhoneNumber)) (id : Option Int) (etag : Option String) :
    Contact :=
  let ct := pyCapitalize contactType
  { firstName := firstName, lastName := lastName, middleName := middleName, title := title,
    addresses := addresses.map
      (ensureSingleDefault (fun a => a.default) (fun a b => { a with default := b })),
    company := company, customFields := customFields, dob := dob,
    emails := emails.map
      (ensureSingleDefault (fun e => e.default) (fun e b => { e with default := b })),
    phoneNumbers := phoneNumbers.map
      (ensureSingleDefault (fun p => p.default) (fun p b => { p with default := b })),
    id := id, etag := etag,
    contactType := if ct = "Person" then ct else "Company" }

/-- Python `value.len()` on a dictionary value: no built-in type has a
`len` method (the source means `len(value)`), so the attribute lookup
raises `AttributeError` for every non-`None` value. -/
def pyLenAttr : PyObj → Except String Nat
  | PyObj.pnone => Except.error "AttributeError: NoneType object has no attribute len"
  | PyObj.pint _ => Except.error "AttributeError: int object has no attribute len"
  | PyObj.pstr _ => Except.error "AttributeError: str object has no attribute len"
  | PyObj.pbool _ => Except.error "AttributeError: bool object has no attribute len"
  | PyObj.plist _ => Except.error "AttributeError: list object has no attribute len"
  | PyObj.pdict _ => Except.error "AttributeError: dict object has no attribute len"

/-- The `RuntimeError` CPython raises when a dictionary changes size
while being iterated. -/
def runtimeErrDictSize : String := "RuntimeError: dictionary changed size during iteration"

/-- Python `d.pop(k)` restricted to the entry list. -/
def eraseKey (d : List (String × PyObj)) (k : String) : List (String × PyObj) :=
  d.filter (fun p => !(p.1 == k))

/-- The cleanup loop at the end of `Clio.Contact.toDict`:
`for key, value in dictionary.items(): if value is None or value.len() == 0:
dictionary.pop(key)`.  Iterating runs over the items of the dictionary;
once a key has been popped the size guard of the dictionary iterator
raises `RuntimeError` at the next step (also at the final step), and for
any non-`None` value the `value.len()` attribute lookup raises
`AttributeError`. -/
def dictCleanup (current : List (String × PyObj)) (changed : Bool) :
    List (String × PyObj) → Except String (List (String × PyObj))
  | [] => if changed then Except.error runtimeErrDictSize else Except.ok current
  | (k, v) :: rest =>
    if changed then Except.error runtimeErrDictSize
    else
      match v with
      | PyObj.pnone => dictCleanup (eraseKey current k) true rest
      | w =>
        match pyLenAttr w with
        | Except.error e => Except.error e
        | Except.ok n =>
          if n = 0 then dictCleanup (eraseKey current k) true rest
          else dictCleanup current changed rest

/-- `Clio.Contact.toDict`.  The three collection loops require the
collections to be iterable (`TypeError` when a collection is `None`,
which is what the stubbed `_ensureSingleDefault` leaves in place in the
source); `self.customFields.items()` requires the custom-field dictionary
to be present; the dictionary is then built — with the literal key
`"firt_name"` of the source — and the final cleanup loop runs
`dictCleanup` above. -/
def contactToDict (c : Contact) : Except String (List (String × PyObj)) :=
  match c.addresses with
  | Option.none => Except.error "TypeError: NoneType object is not iterable"
  | some addrs =>
  match c.emails with
  | Option.none => Except.error "TypeError: NoneType object is not iterable"
  | some ems =>
  match c.phoneNumbers with
  | Option.none => Except.error "TypeError: NoneType object is not iterable"
  | some phs =>
  match c.customFields with
  | Option.none => Except.error "AttributeError: NoneType object has no attribute items"
  | some cfs =>
    let addressDicts := addrs.map (fun a => addressWireObj (Address.toDict a))
    let emailDicts := ems.map (fun e => emailWireObj (Email.toDict e))
    let phoneDicts := phs.map (fun p => phoneNumberWireObj (PhoneNumber.toDict p))
    let customFieldDicts := cfs.map (fun cf =>
      PyObj.pdict [("value", PyObj.pstr cf.2),
                   ("custom_field", PyObj.pdict [("id", PyObj.pint cf.1)])])
    let dictionary : List (String × PyObj) :=
      [("id", optIntObj c.id), ("etag", optStrObj c.etag),
       ("firt_name", PyObj.pstr c.firstName), ("last_name", PyObj.pstr c.lastName),
       ("type", PyObj.pstr c.contactType), ("middle_name", optStrObj c.middleName),
       ("title", optStrObj c.title), ("company", optIntObj c.company),
       ("date_of_birth", optStrObj c.dob), ("addresses", PyObj.plist addressDicts),
       ("email_addresses", PyObj.plist emailDicts),
       ("phone_numbers", PyObj.plist phoneDicts),
       ("custom_field_values", PyObj.plist customFieldDicts)]
    dictCleanup dictionary false dictionary

/-- A concrete contact whose collections are present and whose custom
fields are a one-entry dictionary, so that `toDict` reaches its final
cleanup loop. -/
def c6Contact : Contact :=
  contactInit "Ada" "Lovelace" "Person" Option.none Option.none (some []) Option.none
    (some [(5, "v")]) Option.none (some []) (some []) Option.none Option.none

/-- C6: the serialize/deserialize round-trip fails for `Contact`:
`Contact.toDict` raises for every contact — here, on a fresh contact with
its collections present, the cleanup loop pops the `None`-valued `"id"`
key out of the dictionary while iterating it, so the next iterator step
raises `RuntimeError` (with a persisted id the `value.len()` attribute
lookup raises `AttributeError` instead) — and `Contact.updateFromDict` is
left syntactically unfinished in the source, so no wire round-trip can
reproduce a contact. -/
theorem c6_contact_toDict_raises :
    contactToDict c6Contact = Except.error runtimeErrDictSize := rfl

/-- `Contact.toDict` raises on every contact: each input either has a
collection or custom-field dictionary left at `None` (an iteration
`TypeError` / `AttributeError`), or reaches the cleanup loop, whose first
processed entry `("id", ...)` either is `None` (popped, so the following
iterator step raises `RuntimeError`) or is an `int` (whose `.len()`
attribute lookup raises `AttributeError`). -/
theorem contact_toDict_always_raises (c : Contact) :
    (contactToDict c).toOption = Option.none := by
  unfold contactToDict
  cases c.addresses with
  | none => rfl
  | some addrs =>
    cases c.emails with
    | none => rfl
    | some ems =>
      cases c.phoneNumbers with
      | none => rfl
      | some phs =>
        cases c.customFields with
        | none => rfl
        | some cfs =>
          cases hid : c.id with
          | none => rfl
          | some n => rfl

/-- `Clio.CustomAction` enum: the source defines a single member
(`GENERATE_DOCUMENT`); a second one is commented out as not yet
implemented. -/
inductive CustomAction where
  | GENERATE_DOCUMENT
deriving DecidableEq

/-- The `Clio` instance state set up by `Clio.__init__`.  The token
expiry instants are modelled as natural-number timestamps. -/
structure Session where
  clientId : String
  clientSecret : String
  _token : Option String
  _refreshToken : Option String
  whenTokenExpires : Option Nat
  isAuthorized : Bool
  _state : Option String
  userInstalledCustomActions : Option (List (Nat × CustomAction))
  _rateLimitRemaining : Nat
deriving DecidableEq

/-- `Clio.__init__`: in particular
`self.isAuthorized = self._refreshToken is not None`. -/
def clioInit (clientId clientSecret : String) (refreshToken : Option String)
    (userInstalledCustomActions : Option (List (Nat × CustomAction))) : Session :=
  { clientId := clientId, clientSecret := clientSecret, _token := Option.none,
    _refreshToken := refreshToken, whenTokenExpires := Option.none,
    isAuthorized := refreshToken.isSome, _state := Option.none,
    userInstalledCustomActions := userInstalledCustomActions, _rateLimitRemaining := 100 }

/-- The JSON body and status of an OAuth2 token-endpoint response; the
fields are the ones the source reads on a 200 response. -/
structure TokenResponse where
  status : Nat
  access_token : String
  refresh_token : String
  expires_in : Nat
deriving DecidableEq

/-- `Clio.handleAuthorizationResponse(state, code, error)`.  Result:
(return value, updated session, whether the token-endpoint POST was
issued).  Python `state != self._state` is false exactly when the stored
nonce is `some state` (a string never equals `None`).  Note that the
success branch stores the tokens but never assigns `isAuthorized`. -/
def handleAuthorizationResponse (s : Session) (now : Nat) (state : String)
    (_code : Option String) (error : Option String) (resp : TokenResponse) :
    Bool × Session × Bool :=
  if s.isAuthorized = true then (true, s, false)
  else if error ≠ Option.none ∧ s._state ≠ some state then (false, s, false)
  else
    let s1 := { s with _state := Option.none }
    if resp.status ≠ 200 then (false, s1, true)
    else
      (true,
       { s1 with _token := some resp.access_token,
                 _refreshToken := some resp.refresh_token,
                 whenTokenExpires := some (now + resp.expires_in) },
       true)

/-- `Clio.refreshToken()`.  Result: (return value, updated session,
whether the token-endpoint POST was issued).  On a non-200 response the
function returns `False` and leaves every session field unchanged. -/
def refreshToken (s : Session) (now : Nat) (resp : TokenResponse) :
    Bool × Session × Bool :=
  if s._refreshToken = Option.none then (false, s, false)
  else if resp.status ≠ 200 then (false, s, true)
  else
    (true,
     { s with _token := some resp.access_token,
              whenTokenExpires := some (now + resp.expires_in) },
     true)

/-- A fresh, unauthorized session whose pending state nonce is "st"
(as `getAuthorizationRequestLink` would leave it). -/
def c1Session : Session :=
  { clioInit "cid" "csecret" Option.none Option.none with _state := some "st" }

/-- C1: the invariant `isAuthorized ⟺ refresh token present` does NOT
survive a successful `handleAuthorizationResponse`: on a fresh
unauthorized session with matching state and a 200 token response, the
call returns `True` and stores the refresh token, yet `isAuthorized`
stays `false` — the source never assigns the flag — so the biconditional
fails on the resulting session. -/
theorem c1_completeAuthorization_invariant_broken :
    (handleAuthorizationResponse c1Session 0 "st" (some "code") Option.none
        ⟨200, "atok", "rtok", 3600⟩).1 = true ∧
    (handleAuthorizationResponse c1Session 0 "st" (some "code") Option.none
        ⟨200, "atok", "rtok", 3600⟩).2.1._refreshToken = some "rtok" ∧
    (handleAuthorizationResponse c1Session 0 "st" (some "code") Option.none
        ⟨200, "atok", "rtok", 3600⟩).2.1.isAuthorized = false ∧
    ¬ ((handleAuthorizationResponse c1Session 0 "st" (some "code") Option.none
        ⟨200, "atok", "rtok", 3600⟩).2.1.isAuthorized = true ↔
       (handleAuthorizationResponse c1Session 0 "st" (some "code") Option.none
        ⟨200, "atok", "rtok", 3600⟩).2.1._refreshToken ≠ Option.none) := by
  refine ⟨rfl, rfl, rfl, ?_⟩
  intro h
  exact absurd (h.mpr (by decide)) (by decide)

/-- C10: on an unauthorized session, whenever the call does not return
false at the state check (no error signaled, or the echoed state matches
the stored nonce), the pending state nonce is cleared before the token
exchange is attempted: the exchange is issued, the resulting session's
nonce is `None` for every response — in particular a non-200 response,
where the call returns false — and the cleared nonce can no longer match
the echoed state on a retry. -/
theorem c10_state_nonce_cleared (s : Session) (now : Nat) (state : String)
    (code error : Option String) (resp : TokenResponse)
    (hauth : s.isAuthorized = false)
    (hpass : error = Option.none ∨ s._state = some state) :
    (handleAuthorizationResponse s now state code error resp).2.1._state = Option.none ∧
    (handleAuthorizationResponse s now state code error resp).2.1._state ≠ some state ∧
    (handleAuthorizationResponse s now state code error resp).2.2 = true ∧
    (resp.status ≠ 200 → (handleAuthorizationResponse s now state code error resp).1 = false) := by
  have hcond : ¬ (error ≠ Option.none ∧ s._state ≠ some state) := by
    rcases hpass with h | h
    · intro hc; exact hc.1 h
    · intro hc; exact hc.2 h
  unfold handleAuthorizationResponse
  rw [if_neg (by simp [hauth]), if_neg hcond]
  by_cases hst : resp.status = 200
  · rw [if_neg (by simp [hst])]
    exact ⟨rfl, by simp, rfl, fun hne => absurd hst hne⟩
  · rw [if_pos hst]
    exact ⟨rfl, by simp, rfl, fun _ => rfl⟩

/-- Witness for C10 on a concrete unauthorized session with nonce "st",
no error, and a 400 token response. -/
theorem c10_state_nonce_cleared_witness :
    (handleAuthorizationResponse c1Session 0 "st" (some "code") Option.none
        ⟨400, "", "", 0⟩).2.1._state = Option.none ∧
    (handleAuthorizationResponse c1Session 0 "st" (some "code") Option.none
        ⟨400, "", "", 0⟩).2.1._state ≠ some "st" ∧
    (handleAuthorizationResponse c1Session 0 "st" (some "code") Option.none
        ⟨400, "", "", 0⟩).2.2 = true ∧
    ((400 : Nat) ≠ 200 → (handleAuthorizationResponse c1Session 0 "st" (some "code")
        Option.none ⟨400, "", "", 0⟩).1 = false) :=
  c10_state_nonce_cleared c1Session 0 "st" (some "code") Option.none ⟨400, "", "", 0⟩
    rfl (Or.inl rfl)

/-- A session constructed with a stored refresh token, hence authorized. -/
def c9Session : Session := clioInit "cid" "csecret" (some "rtok") Option.none

/-- Counterexample for C9: on a 400 token-endpoint response (e.g. a
revoked refresh token) `refreshToken` returns `False` but the session is
returned entirely unchanged — it still holds the refresh token and
`isAuthorized` is still `true` — so the session does NOT transition to
the Unauthorized state as the claim says. -/
theorem c9_refresh_failure_keeps_state :
    refreshToken c9Session 0 ⟨400, "", "", 0⟩ = (false, c9Session, true) ∧
    c9Session.isAuthorized = true ∧
    c9Session._refreshToken = some "rtok" := by
  refine ⟨?_, rfl, rfl⟩
  rfl

/-- C9 (amended): `refreshToken` fails, without a network call, when no
refresh token is held; and on a non-200 token-endpoint response it issues
the exchange, returns `False`, and leaves the session unchanged — no
field is modified, so no transition to an Unauthorized state is recorded
(a fresh authorization flow is needed in practice, but the code does not
reflect it in the session state). -/
theorem c9_refresh_failure_behavior (s : Session) (now : Nat) (resp : TokenResponse) :
    (s._refreshToken = Option.none → refreshToken s now resp = (false, s, false)) ∧
    (s._refreshToken ≠ Option.none → resp.status ≠ 200 →
        refreshToken s now resp = (false, s, true)) := by
  constructor
  · intro h
    unfold refreshToken
    rw [if_pos h]
  · intro h hst
    unfold refreshToken
    rw [if_neg h, if_pos hst]

/-- Witness for C9 (amended) on concrete sessions: one with no refresh
token, one with a refresh token meeting a 400 response. -/
theorem c9_refresh_failure_behavior_witness :
    refreshToken (clioInit "cid" "csecret" Option.none Option.none) 0 ⟨400, "", "", 0⟩
        = (false, clioInit "cid" "csecret" Option.none Option.none, false) ∧
    refreshToken c9Session 0 ⟨400, "", "", 0⟩ = (false, c9Session, true) :=
  ⟨(c9_refresh_failure_behavior (clioInit "cid" "csecret" Option.none Option.none) 0
      ⟨400, "", "", 0⟩).1 rfl,
   (c9_refresh_failure_behavior c9Session 0 ⟨400, "", "", 0⟩).2 (by decide) (by decide)⟩

/-- The status and `{"data": {...}}` envelope fields of a Clio REST
response that the source reads. -/
structure ApiResponse where
  status : Nat
  dataId : Int
  dataEtag : String
  dataLabel : String
deriving DecidableEq

/-- Modelled from the spec: `Clio._handleRequest` has an empty (`pass`)
body in the source, so the classification is missing; per the spec
(§4.2) any 2xx status is success and any other status is a failure whose
reason surfaces the HTTP status. -/
def handleRequest (resp : ApiResponse) : Bool × String :=
  if 200 ≤ resp.status ∧ resp.status < 300 then (true, "Success")
  else (false, "HTTP " ++ toString resp.status)

/-- `Clio._authorizationBlankHeader`. -/
def authorizationBlankHeader : String := "Authorization: Bearer"

/-- Python `str(x)` for an optional string (`None` prints as "None"). -/
def pyShowOpt : Option String → String
  | Option.none => "None"
  | some t => t

/-- The value of the `Authorization` header the source builds:
`f"{self._authorizationBlankHeader} {self._token}"`. -/
def authHeaderVal (s : Session) : String :=
  authorizationBlankHeader ++ " " ++ pyShowOpt s._token

/-- Modelled from the spec: the `Clio.Matter` class is referenced by
`createMatter`/`updateMatter` but is absent from the source (only type
annotations and callers exist); per the spec (§3) a Matter carries an
optional id, an optional etag and further data fields, with the same
identity/concurrency pattern as Contact. -/
structure Matter where
  id : Option Int
  etag : Option String
  fields : List (String × String)
deriving DecidableEq

/-- Modelled from the spec: Matter `toWireFormat` omits null fields and
keeps the rest. -/
def Matter.toDict (m : Matter) : List (String × PyObj) :=
  (match m.id with
   | some i => [("id", PyObj.pint i)]
   | Option.none => []) ++
  (match m.etag with
   | some e => [("etag", PyObj.pstr e)]
   | Option.none => []) ++
  m.fields.map (fun p => (p.1, PyObj.pstr p.2))

/-- `Clio.createContact(contactData)`.  Result: (sentinel or raised
error, possibly updated contact, whether the POST was issued).  The
guard returns `-1` before any serialization or network activity; past
the guard the POST data is `contactData.toDict()`, whose evaluation
raises before `requests.post` can run (see C6). -/
def createContact (s : Session) (c : Contact) (resp : ApiResponse) :
    Except String Int × Contact × Bool :=
  if c.id ≠ Option.none ∨ c.etag ≠ Option.none then (Except.ok (-1), c, false)
  else
    let _headers := [("Authorization", authHeaderVal s)]
    match contactToDict c with
    | Except.error e => (Except.error e, c, false)
    | Except.ok _d =>
      let _handled := handleRequest resp
      if resp.status ≠ 201 then (Except.ok (-2), c, true)
      else (Except.ok resp.dataId,
            { c with id := some resp.dataId, etag := some resp.dataEtag }, true)

/-- `Clio.createMatter(matterData)`: same shape as `createContact`,
against the spec-modelled `Matter`, whose serialization is total. -/
def createMatter (s : Session) (m : Matter) (resp : ApiResponse) :
    Except String Int × Matter × Bool :=
  if m.id ≠ Option.none ∨ m.etag ≠ Option.none then (Except.ok (-1), m, false)
  else
    let _headers := [("Authorization", authHeaderVal s)]
    let _data := Matter.toDict m
    let _handled := handleRequest resp
    if resp.status ≠ 201 then (Except.ok (-2), m, true)
    else (Except.ok resp.dataId,
          { m with id := some resp.dataId, etag := some resp.dataEtag }, true)

/-- `Clio.updateContact(contactData, overwrite)`.  Result: (sentinel or
raised error, possibly updated contact, headers of the issued POST when
one was issued).  The guards return `-1` / `-3` before any network
activity; with `overwrite = false` the headers carry `IF-MATCH` with the
stored etag; past the guards the POST data is `contactData.toDict()`,
whose evaluation raises before `requests.post` can run (see C6). -/
def updateContact (s : Session) (c : Contact) (overwrite : Bool) (resp : ApiResponse) :
    Except String Int × Contact × Option (List (String × String)) :=
  if c.id = Option.none then (Except.ok (-1), c, Option.none)
  else if c.etag = Option.none ∧ overwrite = false then (Except.ok (-3), c, Option.none)
  else
    let headers := [("Authorization", authHeaderVal s)]
    let headers := if overwrite = false
      then headers ++ [("IF-MATCH", pyShowOpt c.etag)] else headers
    match contactToDict c with
    | Except.error e => (Except.error e, c, Option.none)
    | Except.ok _d =>
      let _handled := handleRequest resp
      if resp.status ≠ 200 then (Except.ok (-2), c, some headers)
      else (Except.ok resp.dataId, { c with etag := some resp.dataEtag }, some headers)

/-- `Clio.updateMatter(matterData, overwrite)`: same shape as
`updateContact`, against the spec-modelled `Matter`. -/
def updateMatter (s : Session) (m : Matter) (overwrite : Bool) (resp : ApiResponse) :
    Except String Int × Matter × Option (List (String × String)) :=
  if m.id = Option.none then (Except.ok (-1), m, Option.none)
  else if m.etag = Option.none ∧ overwrite = false then (Except.ok (-3), m, Option.none)
  else
    let headers := [("Authorization", authHeaderVal s)]
    let headers := if overwrite = false
      then headers ++ [("IF-MATCH", pyShowOpt m.etag)] else headers
    let _data := Matter.toDict m
    let _handled := handleRequest resp
    if resp.status ≠ 200 then (Except.ok (-2), m, some headers)
    else (Except.ok resp.dataId, { m with etag := some resp.dataEtag }, some headers)

/-- C3: for every Contact or Matter already carrying a non-null id or a
non-null etag, `createContact` / `createMatter` return the "already
exists" sentinel `-1` without issuing any network call and without
touching the object; the "server rejected" sentinel, exhibited on
`createMatter` for a non-201 response after the POST was issued, is `-2`,
distinct from `-1`. -/
theorem c3_create_sentinels (s : Session) (c : Contact) (m m2 : Matter)
    (resp resp2 : ApiResponse)
    (hc : c.id ≠ Option.none ∨ c.etag ≠ Option.none)
    (hm : m.id ≠ Option.none ∨ m.etag ≠ Option.none)
    (hm2a : m2.id = Option.none) (hm2b : m2.etag = Option.none)
    (h201 : resp2.status ≠ 201) :
    createContact s c resp = (Except.ok (-1), c, false) ∧
    createMatter s m resp = (Except.ok (-1), m, false) ∧
    createMatter s m2 resp2 = (Except.ok (-2), m2, true) ∧
    ((-1 : Int) ≠ -2) := by
  refine ⟨?_, ?_, ?_, by decide⟩
  · unfold createContact
    rw [if_pos hc]
  · unfold createMatter
    rw [if_pos hm]
  · unfold createMatter
    rw [if_neg (by simp [hm2a, hm2b]), if_pos h201]

/-- Witness for C3 on concrete objects: a contact with an id, a matter
with an etag, and a fresh matter meeting a 400 response. -/
theorem c3_create_sentinels_witness :
    createContact (clioInit "cid" "csecret" Option.none Option.none)
        { c6Contact with id := some 7 } ⟨400, 0, "", ""⟩
      = (Except.ok (-1), { c6Contact with id := some 7 }, false) ∧
    createMatter (clioInit "cid" "csecret" Option.none Option.none)
        ⟨Option.none, some "et", []⟩ ⟨400, 0, "", ""⟩
      = (Except.ok (-1), ⟨Option.none, some "et", []⟩, false) ∧
    createMatter (clioInit "cid" "csecret" Option.none Option.none)
        ⟨Option.none, Option.none, []⟩ ⟨400, 0, "", ""⟩
      = (Except.ok (-2), ⟨Option.none, Option.none, []⟩, true) ∧
    ((-1 : Int) ≠ -2) :=
  c3_create_sentinels (clioInit "cid" "csecret" Option.none Option.none)
    { c6Contact with id := some 7 } ⟨Option.none, some "et", []⟩
    ⟨Option.none, Option.none, []⟩ ⟨400, 0, "", ""⟩ ⟨400, 0, "", ""⟩
    (Or.inl (by decide)) (Or.inr (by decide)) rfl rfl (by decide)

/-- A contact with an id but no etag (the C4 scenario). -/
def c4Contact : Contact := { c6Contact with id := some 1 }

/-- C4: the "missing etag" guard behaves as claimed — `updateContact` and
`updateMatter` on an object with id set, etag unset and
`overwrite = false` return `-3` with no network call, and with
`overwrite = false` and an etag present the issued write carries an
`IF-MATCH` header holding that etag (shown on `updateMatter`) — but with
`overwrite = true` only `updateMatter` proceeds to issue the write:
`updateContact` passes the guard and then raises inside
`Contact.toDict` before `requests.post` can run, so no write is issued
for a contact. -/
theorem c4_update_guard_and_ifmatch :
    updateContact (clioInit "cid" "csecret" Option.none Option.none) c4Contact false
        ⟨200, 1, "new", ""⟩ = (Except.ok (-3), c4Contact, Option.none) ∧
    updateMatter (clioInit "cid" "csecret" Option.none Option.none) ⟨some 1, Option.none, []⟩
        false ⟨200, 1, "new", ""⟩ = (Except.ok (-3), ⟨some 1, Option.none, []⟩, Option.none) ∧
    (updateMatter (clioInit "cid" "csecret" Option.none Option.none) ⟨some 1, Option.none, []⟩
        true ⟨200, 1, "new", ""⟩).2.2 ≠ Option.none ∧
    ("IF-MATCH", "et") ∈ ((updateMatter (clioInit "cid" "csecret" Option.none Option.none)
        ⟨some 1, some "et", []⟩ false ⟨200, 1, "new", ""⟩).2.2.getD []) ∧
    (updateContact (clioInit "cid" "csecret" Option.none Option.none) c4Contact true
        ⟨200, 1, "new", ""⟩).2.2 = Option.none ∧
    (updateContact (clioInit "cid" "csecret" Option.none Option.none) c4Contact true
        ⟨200, 1, "new", ""⟩).1
      = Except.error "AttributeError: int object has no attribute len" := by
  refine ⟨rfl, rfl, by decide, by decide, rfl, rfl⟩

/-- The `AttributeError` raised by `returnDict["success"].add(...)` /
`returnDict["failed"].add(...)`: the report lists are Python `list`s,
which have `append` but no `add` method. -/
def attrAddErr : String := "AttributeError: list object has no attribute add"

/-- The `AttributeError` raised inside `getCustomAction`: the request URL
f-string reads `self.baseUrl`, but no such attribute exists anywhere on
the class or instance (the class attribute is `_baseUrl`). -/
def attrBaseUrlErr : String := "AttributeError: Clio object has no attribute baseUrl"

/-- `Clio.getCustomAction(id)`.  Result: (label or raised error, number
of GET requests issued).  The source sets `label = ""`, builds the
`Authorization` header and the `fields=label` params, and then evaluates
`f"{self.baseUrl}/custom_actions/{id}.json"`; the `self.baseUrl`
attribute lookup raises before `requests.get` can run, so the function
always raises and never issues the GET. -/
def getCustomAction (s : Session) (_id : Option Nat) : Except String String × Nat :=
  let _label := ""
  let _headers := [("Authorization", authHeaderVal s)]
  let _params := [("fields", "label")]
  (Except.error attrBaseUrlErr, 0)

/-- The scan in `Clio._removeActionGenerateDocument` that finds the
recorded id of the Generate Document action (`None` when no record
exists). -/
def findGDId : List (Nat × CustomAction) → Option Nat
  | [] => Option.none
  | (i, a) :: rest =>
    if a = CustomAction.GENERATE_DOCUMENT then some i else findGDId rest

/-- Python `d.pop(id)` on the installed-actions dictionary: removes the
binding, `KeyError` when the key is absent (or is `None`). -/
def popId (m : List (Nat × CustomAction)) : Option Nat → Except String (List (Nat × CustomAction))
  | Option.none => Except.error "KeyError: None"
  | some i =>
    if (m.find? (fun p => p.1 == i)).isSome
    then Except.ok (m.filter (fun p => !(p.1 == i)))
    else Except.error "KeyError"

/-- `Clio._removeActionGenerateDocument()`.  Result: ((outcome, updated
installed map) or raised error, number of DELETE requests issued).  The
validation step calls `getCustomAction`, which always raises (see
`attrBaseUrlErr`), so in the source as written the label check, the
local-record purge and the DELETE are never reached; they are embedded
nonetheless: on a label mismatch the record is popped and the explicit
corruption reason returned with no DELETE issued, otherwise the DELETE
is issued and the record popped on success. -/
def removeActionGenerateDocument (s : Session) (resp : ApiResponse) :
    Except String ((Bool × String) × List (Nat × CustomAction)) × Nat :=
  match s.userInstalledCustomActions with
  | Option.none => (Except.error "AttributeError: NoneType object has no attribute items", 0)
  | some m =>
    let id := findGDId m
    match (getCustomAction s id).1 with
    | Except.error e => (Except.error e, (getCustomAction s id).2)
    | Except.ok label =>
      if label ≠ "Generate Document" then
        match popId m id with
        | Except.error e => (Except.error e, 0)
        | Except.ok m2 =>
          (Except.ok ((false, "We have invalid ID for \"Generate Document\" custom action!"),
            m2), 0)
      else
        let handled := handleRequest resp
        if handled.1 then
          match popId m id with
          | Except.error e => (Except.error e, 1)
          | Except.ok m2 => (Except.ok (handled, m2), 1)
        else (Except.ok (handled, m), 1)

/-- The per-kind success/failure report
(`{"success": [...], "failed": [...]}`). -/
structure ActionReport where
  success : List (CustomAction × String)
  failed : List (CustomAction × String)
deriving DecidableEq

/-- The first loop of `Clio.removeCustomActions`: for each installed
action whose kind is in the removal set, dispatch the remover; reporting
its outcome then calls `.add` on a report list, which raises
`AttributeError` (lists have `append`, not `add`), so the loop raises at
the first dispatched kind — and the remover itself already raises inside
`getCustomAction`. -/
def removeLoop (s : Session) (resp : ApiResponse) (desired : List CustomAction) :
    List CustomAction → Except String Unit × Nat
  | [] => (Except.ok (), 0)
  | v :: rest =>
    if v ∈ desired then
      match v with
      | CustomAction.GENERATE_DOCUMENT =>
        match removeActionGenerateDocument s resp with
        | (Except.error e, n) => (Except.error e, n)
        | (Except.ok _, n) => (Except.error attrAddErr, n)
    else removeLoop s resp desired rest

/-- `Clio.removeCustomActions(customActions)`.  Result: (report or raised
error, number of DELETE requests issued).  After the loop over the
installed actions, every kind left in the removal set is reported as
"Not installed" via `.add`, which likewise raises on a nonempty set. -/
def removeCustomActions (s : Session) (desired : List CustomAction) (resp : ApiResponse) :
    Except String ActionReport × Nat :=
  match s.userInstalledCustomActions with
  | Option.none => (Except.error "AttributeError: NoneType object has no attribute values", 0)
  | some m =>
    match removeLoop s resp desired (m.map Prod.snd) with
    | (Except.error e, n) => (Except.error e, n)
    | (Except.ok _, n) =>
      match desired with
      | [] => (Except.ok ⟨[], []⟩, n)
      | _ :: _ => (Except.error attrAddErr, n)

/-- The first loop of `Clio.installCustomActions`: every installed action
found in the requested set is removed from the set and then reported via
`returnDict["failed"].add((action, "Already installed"))`, which raises
`AttributeError` on the list. -/
def installLoop1 (desired : List CustomAction) : List CustomAction → Except String Unit
  | [] => Except.ok ()
  | v :: rest => if v ∈ desired then Except.error attrAddErr else installLoop1 desired rest

/-- The second loop of `Clio.installCustomActions`: each remaining kind
is dispatched — `GENERATE_DOCUMENT` POSTs the descriptor via
`_installActionGenerateDocument` (whose stubbed `_handleRequest` is
spec-modelled as `handleRequest`) — and then reported via `.add`, which
raises `AttributeError` whether the installation succeeded or failed
(unknown kinds would be reported as "Not implemented" through the same
raising `.add`). -/
def installLoop2 (resp : ApiResponse) : List CustomAction → Except String Unit × Nat
  | [] => (Except.ok (), 0)
  | CustomAction.GENERATE_DOCUMENT :: _ =>
    let _handled := handleRequest resp
    (Except.error attrAddErr, 1)

/-- `Clio.installCustomActions(customActions)`.  Result: (report or
raised error, number of POST requests issued). -/
def installCustomActions (s : Session) (desired : List CustomAction) (resp : ApiResponse) :
    Except String ActionReport × Nat :=
  match s.userInstalledCustomActions with
  | Option.none => (Except.error "AttributeError: NoneType object has no attribute values", 0)
  | some m =>
    match installLoop1 desired (m.map Prod.snd) with
    | Except.error e => (Except.error e, 0)
    | Except.ok _ =>
      match installLoop2 resp desired with
      | (Except.error e, n) => (Except.error e, n)
      | (Except.ok _, n) => (Except.ok ⟨[], []⟩, n)

/-- A session whose installed-actions registry records
`42 ↦ GENERATE_DOCUMENT`. -/
def c7Session : Session :=
  clioInit "cid" "csecret" (some "rtok") (some [(42, CustomAction.GENERATE_DOCUMENT)])

/-- C7: with a local record `42 ↦ GENERATE_DOCUMENT` (and whatever label
the server would report for id 42), `removeCustomActions` does not purge
the record, issues no DELETE, and produces no corruption report: it
raises `AttributeError` — the label validation calls `getCustomAction`,
which reads the undefined attribute `self.baseUrl` before it can fetch
the label (and even past that, reporting the failure calls `.add` on a
list).  No network request of any kind is issued. -/
theorem c7_remove_corruption_detection_raises :
    removeCustomActions c7Session [CustomAction.GENERATE_DOCUMENT] ⟨204, 0, "", ""⟩
      = (Except.error attrBaseUrlErr, 0) := rfl

/-- A session whose installed-actions registry records
`7 ↦ GENERATE_DOCUMENT`. -/
def c8Session : Session :=
  clioInit "cid" "csecret" (some "rtok") (some [(7, CustomAction.GENERATE_DOCUMENT)])

/-- C8: requesting installation of an already-installed kind does not
yield a report with an "Already installed" failure: `installCustomActions`
raises `AttributeError` when it reports the kind, because the report
lists have no `add` method; no POST is issued. -/
theorem c8_install_report_raises :
    installCustomActions c8Session [CustomAction.GENERATE_DOCUMENT] ⟨201, 9, "e", ""⟩
      = (Except.error attrAddErr, 0) := rfl
